import Mathlib

/-!
Verification of the valuation core of `yahoo_finance_screen_scraper`.

The notebook `src/screen_scraper.ipynb` defines one numeric function,
`npv_fcf`, computing a discounted-cash-flow (DCF) equity value, and one
driver, `trackr`, which feeds scraped pandas data into `npv_fcf` and then
derives a per-share value and a price multiple by division.

We embed the numeric core over `ℚ` (the Python code is exact rational
arithmetic apart from float rounding, which none of the verified
properties depend on).  Fallible steps are made explicit:

* Python raises `ZeroDivisionError` on scalar division by zero; in the
  embedding `npv_fcf` returns `Except.error PyError.zeroDivision` when
  `1 + discount_rate = 0` and the loop runs at least once.
* With `years ≤ 0` the loop body of `npv_fcf` never runs, so the later
  read of `final_fcf` raises `NameError` (`UnboundLocalError`); the
  embedding returns `Except.error PyError.nameError` in that case.
* The per-share divisions in `trackr` act on pandas Series, i.e. numpy
  floats: dividing by zero there raises nothing and produces a
  non-finite value (`inf`/`nan`).  `PyFloat` models a numpy float as
  either a finite rational or the (collapsed) non-finite state, and
  `npdiv` models numpy division.
-/

namespace YahooScraper

/-- Error kinds a Python run of the valuation code can raise.
`invalidConfiguration` is the error kind named by the specification's
error-handling design; the source never defines nor raises it, and it is
included only so that its absence can be stated. -/
inductive PyError
  | zeroDivision
  | nameError
  | invalidConfiguration
deriving DecidableEq

/-- The loop of `npv_fcf` (notebook cell 7):

`for year in range(1, years+1): fcf = fcf*(1+growth_rate)/(1+discount_rate);
 growth_rate = growth_rate*(1-growth_decline_rate); final_fcf = fcf; npv.append(fcf)`.

Returns the list `npv` built by the loop together with the final value of
the loop-local variable `final_fcf` (`none` when the loop never ran and
`final_fcf` was never bound). -/
def npv_loop (fcf r g gd : ℚ) : ℕ → List ℚ × Option ℚ
  | 0 => ([], none)
  | Nat.succ n =>
      let fcf2 := fcf * (1 + g) / (1 + r)
      let rest := npv_loop fcf2 r (g * (1 - gd)) gd n
      (fcf2 :: rest.1, some (rest.2.getD fcf2))

/-- The projected cash-flow sequence: the list of values appended to `npv`
inside the loop of `npv_fcf` (the spec calls this `project_cash_flows`). -/
def project_cash_flows (fcf r g gd : ℚ) (n : ℕ) : List ℚ :=
  (npv_loop fcf r g gd n).1

/-- `npv_fcf` from notebook cell 7.  After the loop, the source appends
`final_fcf * multiplier`, `cash_on_hand` and `-total_debt` to the list and
returns its sum.  Python fails with `ZeroDivisionError` when the loop body
divides by `1 + discount_rate = 0`, and with `NameError` when `years < 1`
leaves `final_fcf` unbound. -/
def npv_fcf (fcf r : ℚ) (years : ℕ) (g m gd cash_on_hand total_debt : ℚ) :
    Except PyError ℚ :=
  if 1 + r = 0 ∧ years ≠ 0 then Except.error PyError.zeroDivision
  else
    match (npv_loop fcf r g gd years).2 with
    | none => Except.error PyError.nameError
    | some final_fcf =>
        Except.ok
          (((npv_loop fcf r g gd years).1
            ++ [final_fcf * m, cash_on_hand, -total_debt]).sum)

/-- A numpy/pandas float value, as produced by the Series arithmetic in
`trackr`: either a finite rational or a non-finite value (`inf`/`nan`,
collapsed into one state, since the code never distinguishes them). -/
inductive PyFloat
  | fin (q : ℚ)
  | nonfin
deriving DecidableEq

/-- numpy float division, as performed elementwise on pandas Series:
division by zero raises no exception and yields a non-finite value. -/
def npdiv : PyFloat → PyFloat → PyFloat
  | PyFloat.fin a, PyFloat.fin b =>
      if b = 0 then PyFloat.nonfin else PyFloat.fin (a / b)
  | _, _ => PyFloat.nonfin

/-- The valuation-ratio lines of `trackr` (notebook cell 9):

`stock_cat[DCF Share Price] = stock_cat[DCF Value] / stock_cat[Approx Shares Outstanding]`
`stock_cat[DCF/Price Multiple] = stock_cat[DCF Share Price] / stock_cat[Previous Close]`

modelled per security on numpy floats.  The `Except` codomain records
where an exception could surface; the Series divisions never raise one. -/
def trackr_dcf (dcf_value shares prev_close : PyFloat) :
    Except PyError (PyFloat × PyFloat) :=
  Except.ok (npdiv dcf_value shares, npdiv (npdiv dcf_value shares) prev_close)

/- ## Basic structural lemmas about the loop -/

lemma npv_loop_zero (fcf r g gd : ℚ) : npv_loop fcf r g gd 0 = ([], none) :=
  rfl

lemma npv_loop_succ (fcf r g gd : ℚ) (n : ℕ) :
    npv_loop fcf r g gd (n + 1) =
      (fcf * (1 + g) / (1 + r) ::
        (npv_loop (fcf * (1 + g) / (1 + r)) r (g * (1 - gd)) gd n).1,
       some ((npv_loop (fcf * (1 + g) / (1 + r)) r (g * (1 - gd)) gd n).2.getD
          (fcf * (1 + g) / (1 + r)))) :=
  rfl

lemma project_cash_flows_zero (fcf r g gd : ℚ) :
    project_cash_flows fcf r g gd 0 = [] := rfl

lemma project_cash_flows_succ (fcf r g gd : ℚ) (n : ℕ) :
    project_cash_flows fcf r g gd (n + 1) =
      fcf * (1 + g) / (1 + r) ::
        project_cash_flows (fcf * (1 + g) / (1 + r)) r (g * (1 - gd)) gd n :=
  rfl

lemma project_cash_flows_length (r gd : ℚ) :
    ∀ (n : ℕ) (fcf g : ℚ), (project_cash_flows fcf r g gd n).length = n := by
  intro n
  induction n with
  | zero => intro fcf g; rfl
  | succ n ih =>
      intro fcf g
      rw [project_cash_flows_succ, List.length_cons, ih]

/-- The loop variable `final_fcf` ends up holding exactly the last element
of the list built by the loop. -/
lemma npv_loop_snd_eq_getLast (r gd : ℚ) :
    ∀ (n : ℕ) (fcf g : ℚ),
      (npv_loop fcf r g gd n).2 = (project_cash_flows fcf r g gd n).getLast? := by
  intro n
  induction n with
  | zero => intro fcf g; rfl
  | succ n ih =>
      intro fcf g
      rw [npv_loop_succ, project_cash_flows_succ]
      cases n with
      | zero => rfl
      | succ k =>
          rw [project_cash_flows_succ]
          simp only [List.getLast?_cons_cons]
          rw [← project_cash_flows_succ, ih]
          rw [project_cash_flows_succ]
          cases h : (project_cash_flows
              (fcf * (1 + g) / (1 + r) * (1 + g * (1 - gd)) / (1 + r)) r
              (g * (1 - gd) * (1 - gd)) gd k).getLast? with
          | none => simp [List.getLast?_cons, h]
          | some x => simp [List.getLast?_cons, h]

lemma npv_loop_snd_isSome (fcf r g gd : ℚ) (n : ℕ) (hn : n ≠ 0) :
    ∃ x, (npv_loop fcf r g gd n).2 = some x := by
  cases n with
  | zero => exact absurd rfl hn
  | succ k => exact ⟨_, by rw [npv_loop_succ]⟩

/-- When `years ≥ 1` and `1 + r ≠ 0`, `npv_fcf` returns normally, and its
value is the sum of the projected flows, plus the last flow times the
multiplier, plus cash on hand, minus total debt. -/
lemma npv_fcf_ok (fcf r : ℚ) (n : ℕ) (g m gd c d : ℚ)
    (hn : n ≠ 0) (hr : 1 + r ≠ 0) :
    npv_fcf fcf r n g m gd c d =
      Except.ok ((project_cash_flows fcf r g gd n).sum
        + ((project_cash_flows fcf r g gd n).getLast?.getD 0) * m + c - d) := by
  obtain ⟨x, hx⟩ := npv_loop_snd_isSome fcf r g gd n hn
  have hlast : (project_cash_flows fcf r g gd n).getLast? = some x := by
    rw [← npv_loop_snd_eq_getLast, hx]
  rw [npv_fcf, if_neg (fun h => hr h.1), hx]
  rw [show (npv_loop fcf r g gd n).1 = project_cash_flows fcf r g gd n from rfl]
  rw [hlast]
  simp only [List.sum_append, List.sum_cons, List.sum_nil, Option.getD_some]
  ring_nf

/-- Closed form of the loop: the element at (0-based) index `j` of the
projected sequence is the initial `fcf` times the product over the first
`j + 1` years of `(1 + g·(1-gd)^(year-1)) / (1 + r)`. -/
lemma project_cash_flows_getElem (r gd : ℚ) :
    ∀ (n j : ℕ), j < n → ∀ (fcf g : ℚ),
      (project_cash_flows fcf r g gd n)[j]? =
        some (fcf * ∏ i in Finset.range (j + 1), ((1 + g * (1 - gd) ^ i) / (1 + r))) := by
  intro n
  induction n with
  | zero => intro j hj; omega
  | succ n ih =>
      intro j hj fcf g
      cases j with
      | zero =>
          rw [project_cash_flows_succ]
          simp only [List.getElem?_cons_zero, Nat.zero_add, Finset.range_one,
            Finset.prod_singleton, pow_zero, mul_one, Option.some.injEq]
          rw [mul_div_assoc]
      | succ j =>
          rw [project_cash_flows_succ]
          simp only [List.getElem?_cons_succ]
          rw [ih j (by omega)]
          congr 1
          conv_rhs => rw [Finset.prod_range_succ']
          have hprod :
              ∏ i in Finset.range (j + 1),
                  ((1 + g * (1 - gd) * (1 - gd) ^ i) / (1 + r)) =
              ∏ i in Finset.range (j + 1),
                  ((1 + g * (1 - gd) ^ (i + 1)) / (1 + r)) := by
            refine Finset.prod_congr rfl fun i _ => ?_
            rw [pow_succ]
            ring
          rw [hprod, pow_zero, mul_one]
          ring

/-- Scaling the initial cash flow by `k` scales every value the loop
computes by `k`. -/
lemma npv_loop_smul (r gd k : ℚ) :
    ∀ (n : ℕ) (fcf g : ℚ),
      npv_loop (k * fcf) r g gd n =
        ((npv_loop fcf r g gd n).1.map (fun x => k * x),
         (npv_loop fcf r g gd n).2.map (fun x => k * x)) := by
  intro n
  induction n with
  | zero => intro fcf g; rfl
  | succ n ih =>
      intro fcf g
      rw [npv_loop_succ, npv_loop_succ]
      have hstep : k * fcf * (1 + g) / (1 + r) = k * (fcf * (1 + g) / (1 + r)) := by
        ring
      rw [hstep, ih]
      cases h : (npv_loop (fcf * (1 + g) / (1 + r)) r (g * (1 - gd)) gd n).2 with
      | none => simp [h]
      | some x => simp [h]

lemma list_sum_map_mul (k : ℚ) :
    ∀ l : List ℚ, (l.map (fun x => k * x)).sum = k * l.sum := by
  intro l
  induction l with
  | nil => simp
  | cons a l ih => simp [ih, mul_add]

/- ## Claims -/

/-- Claim C1: for every initial free cash flow, discount rate `r ≠ -1`,
growth rate, growth decline rate and `n ≥ 1` years, the element at
0-based index `j < n` of the sequence the loop of `npv_fcf` appends to
`npv` equals `fcf` times the product over the first `j + 1` years of
`(1 + g·(1-gd)^(year-1)) / (1 + r)`: the growth rate used in year `k` is
the one decayed in the `k - 1` preceding years, the decay being applied
only after each year's value is computed. -/
theorem claim_C1 (fcf r g gd : ℚ) (n j : ℕ) (_hr : r ≠ -1) (hj : j < n) :
    (project_cash_flows fcf r g gd n)[j]? =
      some (fcf * ∏ i in Finset.range (j + 1), ((1 + g * (1 - gd) ^ i) / (1 + r))) :=
  project_cash_flows_getElem r gd n j hj fcf g

theorem claim_C1_witness :
    (2:ℚ) ≠ -1 ∧ 1 < 2 ∧
    (project_cash_flows 3 2 1 0 2)[1]? =
      some (3 * ∏ i in Finset.range (1 + 1), ((1 + 1 * (1 - 0) ^ i) / (1 + 2))) :=
  ⟨by norm_num, by norm_num, claim_C1 3 2 1 0 2 1 (by norm_num) (by norm_num)⟩

/-- Claim C2: with `years ≥ 1` and `r ≠ -1`, the value `npv_fcf` returns
is the sum of the `n` projected cash flows, plus the last projected flow
times the multiplier, plus cash on hand, minus total debt. -/
theorem claim_C2 (fcf r g m gd c d : ℚ) (n : ℕ) (hn : 1 ≤ n) (hr : r ≠ -1) :
    npv_fcf fcf r n g m gd c d =
      Except.ok ((project_cash_flows fcf r g gd n).sum
        + ((project_cash_flows fcf r g gd n).getLast?.getD 0) * m + c - d) :=
  npv_fcf_ok fcf r n g m gd c d (by omega) (fun h => hr (by linarith))

theorem claim_C2_witness :
    1 ≤ 2 ∧ ((1:ℚ)/10) ≠ -1 ∧
    npv_fcf 100 (1/10) 2 (1/10) 12 0 500 200 =
      Except.ok ((project_cash_flows 100 (1/10) (1/10) 0 2).sum
        + ((project_cash_flows 100 (1/10) (1/10) 0 2).getLast?.getD 0) * 12
        + 500 - 200) :=
  ⟨by norm_num, by norm_num,
   claim_C2 100 (1/10) (1/10) 12 0 500 200 2 (by norm_num) (by norm_num)⟩

/-- Claim C3: for `n ≥ 1` (and a valid discount rate `r ≠ -1`), the loop
produces exactly `n` values, and the variable `final_fcf` that the
terminal value multiplies is exactly the last element of that sequence. -/
theorem claim_C3 (fcf r g gd : ℚ) (n : ℕ) (_hn : 1 ≤ n) (_hr : r ≠ -1) :
    (project_cash_flows fcf r g gd n).length = n ∧
    (npv_loop fcf r g gd n).2 = (project_cash_flows fcf r g gd n).getLast? :=
  ⟨project_cash_flows_length r gd n fcf g, npv_loop_snd_eq_getLast r gd n fcf g⟩

theorem claim_C3_witness :
    1 ≤ 3 ∧ ((1:ℚ)/10) ≠ -1 ∧
    ((project_cash_flows 100 (1/10) (1/10) 0 3).length = 3 ∧
     (npv_loop 100 (1/10) (1/10) 0 3).2 =
       (project_cash_flows 100 (1/10) (1/10) 0 3).getLast?) :=
  ⟨by norm_num, by norm_num,
   claim_C3 100 (1/10) (1/10) 0 3 (by norm_num) (by norm_num)⟩

/-- Claim C4 is false as stated: with `shares_outstanding = 0` the pandas
Series division in `trackr` raises nothing; it returns a non-finite value
(here with DCF value 42 and previous close 50). -/
theorem claim_C4_counterexample :
    trackr_dcf (PyFloat.fin 42) (PyFloat.fin 0) (PyFloat.fin 50) =
      Except.ok (PyFloat.nonfin, PyFloat.nonfin) := rfl

/-- Claim C4 (amended): computing a valuation with `shares_outstanding = 0`
does not raise a `DivisionError`: the division returns normally, and the
per-share value and the price multiple are non-finite values that
propagate into the result. -/
theorem claim_C4 (v p : PyFloat) :
    trackr_dcf v (PyFloat.fin 0) p = Except.ok (PyFloat.nonfin, PyFloat.nonfin) := by
  cases v <;> cases p <;> rfl

/-- Claim C5 is false as stated: with `current_price = 0` (DCF value 7,
shares 2) `trackr` raises nothing and returns a non-finite multiple. -/
theorem claim_C5_counterexample :
    trackr_dcf (PyFloat.fin 7) (PyFloat.fin 2) (PyFloat.fin 0) =
      Except.ok (PyFloat.fin (7 / 2), PyFloat.nonfin) := rfl

/-- Claim C5 (amended): when `current_price` is zero (and shares are
nonzero), the computation does not fail with a `DivisionError`: the share
price is returned finite and the price multiple is a silently propagated
non-finite value. -/
theorem claim_C5 (v s : ℚ) (hs : s ≠ 0) :
    trackr_dcf (PyFloat.fin v) (PyFloat.fin s) (PyFloat.fin 0) =
      Except.ok (PyFloat.fin (v / s), PyFloat.nonfin) := by
  simp [trackr_dcf, npdiv, hs]

theorem claim_C5_witness :
    (10:ℚ) ≠ 0 ∧
    trackr_dcf (PyFloat.fin 42) (PyFloat.fin 10) (PyFloat.fin 0) =
      Except.ok (PyFloat.fin (42 / 10), PyFloat.nonfin) :=
  ⟨by norm_num, claim_C5 42 10 (by norm_num)⟩

/-- Claim C6 is false as stated: calling `npv_fcf` with
`projection_years = 0` fails with a `NameError` (the unbound `final_fcf`),
an unrelated failure, not an `InvalidConfiguration` error. -/
theorem claim_C6_counterexample :
    npv_fcf 100 (1/10) 0 (1/10) 12 (1/20) 500 200 =
      Except.error PyError.nameError ∧
    PyError.nameError ≠ PyError.invalidConfiguration := by
  refine ⟨?_, by decide⟩
  simp [npv_fcf, npv_loop]

/-- Claim C6 (amended): the code defines no `InvalidConfiguration` error:
a non-positive `projection_years` surfaces as a `NameError` from the
unbound `final_fcf`, and `discount_rate = -1` (with at least one loop
iteration) surfaces as a `ZeroDivisionError`; in both cases no partial
result is produced. -/
theorem claim_C6 (fcf r g m gd c d : ℚ) (n : ℕ) :
    (n = 0 → npv_fcf fcf r n g m gd c d = Except.error PyError.nameError) ∧
    (n ≠ 0 → 1 + r = 0 →
      npv_fcf fcf r n g m gd c d = Except.error PyError.zeroDivision) := by
  constructor
  · intro hn
    subst hn
    simp [npv_fcf, npv_loop]
  · intro hn hr
    simp [npv_fcf, hr, hn]

theorem claim_C6_witness :
    npv_fcf 100 (1/10) 0 (1/10) 12 (1/20) 500 200 =
      Except.error PyError.nameError ∧
    npv_fcf 100 (-1) 5 (1/10) 12 (1/20) 500 200 =
      Except.error PyError.zeroDivision :=
  ⟨(claim_C6 100 (1/10) (1/10) 12 (1/20) 500 200 0).1 rfl,
   (claim_C6 100 (-1) (1/10) 12 (1/20) 500 200 5).2 (by norm_num) (by norm_num)⟩

/-- Claim C7: for `years ≥ 1` and `discount_rate ≠ -1`, `npv_fcf` always
returns a numeric result, whatever the signs of the other inputs. -/
theorem claim_C7 (fcf r g m gd c d : ℚ) (n : ℕ) (hn : 1 ≤ n) (hr : r ≠ -1) :
    ∃ v : ℚ, npv_fcf fcf r n g m gd c d = Except.ok v :=
  ⟨_, npv_fcf_ok fcf r n g m gd c d (by omega) (fun h => hr (by linarith))⟩

theorem claim_C7_witness :
    1 ≤ 2 ∧ (-(3:ℚ)) ≠ -1 ∧
    ∃ v : ℚ, npv_fcf (-100) (-3) 2 (-2) 12 (3/2) (-500) (-200) = Except.ok v :=
  ⟨by norm_num, by norm_num,
   claim_C7 (-100) (-3) (-2) 12 (3/2) (-500) (-200) 2 (by norm_num) (by norm_num)⟩

/-- Claim C8 is false as stated: with `fcf = 100 > 0`, `g = -1`, `gd = 0`,
`n = 1`, both discount rates `0 < 1` yield the same sequence `[0]`, so no
element strictly decreases. -/
theorem claim_C8_counterexample :
    (0:ℚ) < 100 ∧ (0:ℚ) < 1 ∧
    project_cash_flows 100 0 (-1) 0 1 = [0] ∧
    project_cash_flows 100 1 (-1) 0 1 = [0] ∧
    ¬ ((0:ℚ) < 0) := by
  have e1 : project_cash_flows 100 0 (-1) 0 1 = [0] := by
    rw [show (1:ℕ) = 0 + 1 from rfl, project_cash_flows_succ, project_cash_flows_zero]
    norm_num
  have e2 : project_cash_flows 100 1 (-1) 0 1 = [0] := by
    rw [show (1:ℕ) = 0 + 1 from rfl, project_cash_flows_succ, project_cash_flows_zero]
    norm_num
  exact ⟨by norm_num, by norm_num, e1, e2, by norm_num⟩

/-- Claim C8 (amended): holding `fcf > 0` and the growth inputs fixed,
the projected sequence is strictly antitone in the discount rate, provided
both rates exceed `-1` and every per-year growth factor
`1 + g·(1-gd)^(year-1)` is positive (with a zero or negative growth
factor, e.g. `g = -1`, strictness fails). -/
theorem claim_C8 (fcf g gd r1 r2 : ℚ) (n : ℕ)
    (hf : 0 < fcf) (h1 : -1 < r1) (h12 : r1 < r2)
    (hg : ∀ i, i < n → 0 < 1 + g * (1 - gd) ^ i) :
    ∀ j, j < n → ∀ a b,
      (project_cash_flows fcf r1 g gd n)[j]? = some a →
      (project_cash_flows fcf r2 g gd n)[j]? = some b → b < a := by
  intro j hj a b ha hb
  rw [project_cash_flows_getElem r1 gd n j hj fcf g] at ha
  rw [project_cash_flows_getElem r2 gd n j hj fcf g] at hb
  injection ha with ha
  injection hb with hb
  have hfact : ∀ r : ℚ,
      fcf * ∏ i in Finset.range (j + 1), ((1 + g * (1 - gd) ^ i) / (1 + r)) =
      fcf * ((∏ i in Finset.range (j + 1), (1 + g * (1 - gd) ^ i)) / (1 + r) ^ (j + 1)) := by
    intro r
    rw [Finset.prod_div_distrib, Finset.prod_const, Finset.card_range]
  have hr1 : (0:ℚ) < 1 + r1 := by linarith
  have hPpos : 0 < ∏ i in Finset.range (j + 1), (1 + g * (1 - gd) ^ i) :=
    Finset.prod_pos fun i hi => hg i (by have := Finset.mem_range.mp hi; omega)
  have hpow : (1 + r1) ^ (j + 1) < (1 + r2) ^ (j + 1) :=
    pow_lt_pow_left₀ (by linarith) (le_of_lt hr1) (Nat.succ_ne_zero j)
  rw [← ha, ← hb, hfact r1, hfact r2]
  exact mul_lt_mul_of_pos_left
    (div_lt_div_of_pos_left hPpos (pow_pos hr1 (j + 1)) hpow) hf

theorem claim_C8_witness :
    (0:ℚ) < 100 ∧ (-1:ℚ) < 0 ∧ (0:ℚ) < 1 ∧ (55:ℚ) < 110 :=
  ⟨by norm_num, by norm_num, by norm_num,
   claim_C8 100 (1/10) 0 0 1 1 (by norm_num) (by norm_num) (by norm_num)
     (fun i _ => by norm_num) 0 (by norm_num) 110 55
     (by rw [show (1:ℕ) = 0 + 1 from rfl, project_cash_flows_succ]; norm_num)
     (by rw [show (1:ℕ) = 0 + 1 from rfl, project_cash_flows_succ]; norm_num)⟩

/-- Claim C9: on initial cash flow 100, discount rate 1/10, 3 years,
growth rate 1/10 and no growth decline, the loop produces exactly
`[100, 100, 100]`. -/
theorem claim_C9 :
    project_cash_flows 100 (1/10) (1/10) 0 3 = [100, 100, 100] := by
  rw [show (3:ℕ) = 2 + 1 from rfl, project_cash_flows_succ,
      show (2:ℕ) = 1 + 1 from rfl, project_cash_flows_succ,
      show (1:ℕ) = 0 + 1 from rfl, project_cash_flows_succ, project_cash_flows_zero]
  norm_num

/-- Claim C10: cash on hand and total debt are pure additive offsets of
the value `npv_fcf` returns, and the discounted-flow-plus-terminal part
scales linearly with the initial free cash flow. -/
theorem claim_C10 (fcf r g m gd c d k : ℚ) (n : ℕ) (hn : 1 ≤ n) (hr : r ≠ -1) :
    ∃ v : ℚ,
      npv_fcf fcf r n g m gd 0 0 = Except.ok v ∧
      npv_fcf fcf r n g m gd c d = Except.ok (v + c - d) ∧
      npv_fcf (k * fcf) r n g m gd 0 0 = Except.ok (k * v) := by
  have hn0 : n ≠ 0 := by omega
  have hr0 : 1 + r ≠ 0 := fun h => hr (by linarith)
  obtain ⟨x, hx⟩ := npv_loop_snd_isSome fcf r g gd n hn0
  have hlast1 : (project_cash_flows fcf r g gd n).getLast? = some x := by
    rw [← npv_loop_snd_eq_getLast, hx]
  have hsmul := npv_loop_smul r gd k n fcf g
  have hlast2 : (project_cash_flows (k * fcf) r g gd n).getLast? = some (k * x) := by
    rw [← npv_loop_snd_eq_getLast, hsmul]
    simp [hx]
  have hsum : (project_cash_flows (k * fcf) r g gd n).sum =
      k * (project_cash_flows fcf r g gd n).sum := by
    unfold project_cash_flows
    rw [hsmul]
    exact list_sum_map_mul k _
  refine ⟨(project_cash_flows fcf r g gd n).sum + x * m, ?_, ?_, ?_⟩
  · rw [npv_fcf_ok fcf r n g m gd 0 0 hn0 hr0, hlast1]
    exact congrArg Except.ok (by simp)
  · rw [npv_fcf_ok fcf r n g m gd c d hn0 hr0, hlast1]
    exact congrArg Except.ok (by simp)
  · rw [npv_fcf_ok (k * fcf) r n g m gd 0 0 hn0 hr0, hlast2, hsum]
    exact congrArg Except.ok (by simp; ring)

theorem claim_C10_witness :
    1 ≤ 1 ∧ ((1:ℚ)/10) ≠ -1 ∧
    ∃ v : ℚ,
      npv_fcf 100 (1/10) 1 (1/10) 12 0 0 0 = Except.ok v ∧
      npv_fcf 100 (1/10) 1 (1/10) 12 0 500 200 = Except.ok (v + 500 - 200) ∧
      npv_fcf (3 * 100) (1/10) 1 (1/10) 12 0 0 0 = Except.ok (3 * v) :=
  ⟨by norm_num, by norm_num,
   claim_C10 100 (1/10) (1/10) 12 0 500 200 3 1 (by norm_num) (by norm_num)⟩

end YahooScraper
